import Mathlib

/-!
Verification of the camera session lifecycle controller (src/main.rs).

A shallow embedding of `main` and `get_camera_stream` from the repository.
External collaborators (ONVIF discovery client, RTSP session controller,
RTP receiver/decoder, SDL2 display) are modelled as an environment record
whose fields give the result of each external call; the embedded functions
replay the exact control flow of the Rust source and record every external
interaction in a trace. The RTP read loop is an unbounded `loop`, so the
embedding takes a fuel parameter; a `fuelOut` outcome means the loop was
still running when the fuel ran out (the Rust function has not returned).
-/

namespace Nvr

/-- ONVIF discovery message kinds (`onvif_cam_rs::client::Messages`). -/
inductive Messages where
  | Capabilities
  | DeviceInfo
  | Profiles
  | GetStreamURI
deriving DecidableEq, Repr

/-- RTSP method kinds (`rtsp_rtp_rs::rtsp::Methods`). -/
inductive Methods where
  | Options
  | Describe
  | Setup
  | Play
  | Teardown
deriving DecidableEq, Repr

/-- Opaque error payload, standing for `anyhow::Error`. -/
abbrev Err := String

/-- Result of a fallible external call, standing for Rust `Result`. -/
inductive RResult (α : Type) where
  | ok (a : α)
  | err (e : Err)
deriving DecidableEq, Repr

/-- SDL2 input events, as distinguished by the match in the event pump loop:
`Event::Quit`, `Event::KeyDown` with `Keycode::Escape`, and everything else. -/
inductive SdlEvent where
  | quit
  | keyDownEscape
  | keyDownOther
  | other
deriving DecidableEq, Repr

/-- The event arm that breaks the `'read_rtp_packets` loop:
`Event::Quit \x7b .. \x7d | Event::KeyDown \x7b keycode: Some(Keycode::Escape), .. \x7d`. -/
def isQuitOrEscape : SdlEvent → Bool
  | .quit => true
  | .keyDownEscape => true
  | _ => false

/-- A decoded planar YUV picture (three planes with strides), as produced by
`try_decode`; consumed only by the paint sequence within one iteration. -/
structure Frame where
  yStride : Nat
  uStride : Nat
  vStride : Nat
deriving DecidableEq, Repr

/-- Every externally visible action of one `get_camera_stream` invocation,
in program order. Loop-body actions carry the iteration index `i`;
`iterWaitFrames i n` records that the `wait_frames` variable held `n` at the
top of iteration `i`. -/
inductive Action where
  | rtspNew
  | rtspSend (m : Methods)
  | rtpNew
  | rtpConnect
  | sdlInit
  | windowCreate (w h : Nat)
  | canvasCreate
  | textureCreate (w h : Nat)
  | iterWaitFrames (i n : Nat)
  | pollEvents (i : Nat)
  | rtpGet (i : Nat)
  | tryDecode (i : Nat)
  | logDebugDecoded (i : Nat)
  | textureUpdate (i : Nat)
  | canvasClear (i : Nat)
  | canvasCopy (i : Nat)
  | canvasPresent (i : Nat)
  | logDebugNoDecode (i : Nat)
  | logWarnDecodeErr (i : Nat)
  | logInfoStopping (ok : Bool)
deriving DecidableEq, Repr

/-- How `get_camera_stream` finished. `panic` models `.expect`/`.unwrap`
aborting the process; `fuelOut` means the read loop was still running. -/
inductive Outcome where
  | ok
  | err (e : Err)
  | panic (msg : String)
  | fuelOut
deriving DecidableEq, Repr

/-- How the `'read_rtp_packets` loop stopped, with the iteration index. -/
inductive LoopExit where
  | quitBreak (i : Nat)
  | recvErr (i : Nat) (e : Err)
  | copyPanic (i : Nat)
  | fuelOut (i : Nat)
deriving DecidableEq, Repr

/-- Environment for one `get_camera_stream` call: the outcome of every
external call the function can make, indexed by loop iteration where the
call sits inside the loop. `videoDim` is the stream's actual negotiated
pixel dimensions; the Rust code never reads it (it hardcodes 640x352). -/
structure CamEnv where
  rtspNew : RResult Unit
  rtspSend : Methods → RResult Unit
  responseOkAfterPlay : Bool
  responseOkAfterTeardown : Bool
  clientPortRtp : Nat
  serverAddrRtp : Option String
  rtpNew : RResult Unit
  rtpConnect : RResult Unit
  sdlInitOk : Bool
  videoOk : Bool
  windowBuild : RResult Unit
  canvasBuild : RResult Unit
  textureBuild : RResult Unit
  eventPumpOk : Bool
  videoDim : Nat × Nat
  events : Nat → List SdlEvent
  getRtp : Nat → RResult Unit
  tryDecode : Nat → RResult (Option Frame)
  updateYuv : Nat → RResult Unit
  copyOk : Nat → Bool

/-- Panic message of `canvas.copy(&texture, None, None).expect(...)`. -/
def copyPanicMsg : String := "Error copying texture"

/-- Panic message of `rtsp.server_addr_rtp.unwrap()` when the field is `None`. -/
def unwrapMsg : String := "called unwrap on a None value"

/-- Panic message of `sdl2::init().expect(...)`. -/
def sdlInitMsg : String := "Error sdl2 init"

/-- Panic message of `sdl_context.video().expect(...)`. -/
def videoMsg : String := "Error sld2 video subsystem"

/-- Panic message of `sdl_context.event_pump().expect(...)`. -/
def eventPumpMsg : String := "Error sld2 event"

/-- The `'read_rtp_packets` loop (src/main.rs lines 83-130). One iteration:
poll the event pump and break on quit/escape; `rtp_stream.get_rtp().await?`
(an error propagates out of the whole function); `try_decode()` matched as
`Ok(Some(yuv))` (debug log, `texture.update_yuv` with its result discarded
into `_result`, `canvas.clear()`, `canvas.copy(..).expect(..)`,
`canvas.present()`), `Ok(None)` (debug log), or `Err(e)` (warn log).
`wf` is the `wait_frames` variable, which the loop never modifies. -/
def runLoop (env : CamEnv) : Nat → Nat → Nat → LoopExit × List Action
  | 0, i, _ => (.fuelOut i, [])
  | fuel + 1, i, wf =>
    if (env.events i).any isQuitOrEscape then
      (.quitBreak i, [.iterWaitFrames i wf, .pollEvents i])
    else
      match env.getRtp i with
      | .err e => (.recvErr i e, [.iterWaitFrames i wf, .pollEvents i, .rtpGet i])
      | .ok _ =>
        match env.tryDecode i with
        | .ok (some _) =>
          if env.copyOk i then
            let r := runLoop env fuel (i + 1) wf
            (r.1, [.iterWaitFrames i wf, .pollEvents i, .rtpGet i, .tryDecode i,
                   .logDebugDecoded i, .textureUpdate i, .canvasClear i, .canvasCopy i,
                   .canvasPresent i] ++ r.2)
          else
            (.copyPanic i, [.iterWaitFrames i wf, .pollEvents i, .rtpGet i, .tryDecode i,
                            .logDebugDecoded i, .textureUpdate i, .canvasClear i, .canvasCopy i])
        | .ok none =>
          let r := runLoop env fuel (i + 1) wf
          (r.1, [.iterWaitFrames i wf, .pollEvents i, .rtpGet i, .tryDecode i,
                 .logDebugNoDecode i] ++ r.2)
        | .err _ =>
          let r := runLoop env fuel (i + 1) wf
          (r.1, [.iterWaitFrames i wf, .pollEvents i, .rtpGet i, .tryDecode i,
                 .logWarnDecodeErr i] ++ r.2)

/-- The chained RTSP sends (src/main.rs lines 43-50):
`rtsp.send(Options).await?.send(Describe).await?.send(Setup).await?.send(Play).await?`.
Each failing send stops the chain and its error propagates. -/
def chainSends (env : CamEnv) : RResult Unit × List Action :=
  match env.rtspSend .Options with
  | .err e => (.err e, [.rtspSend .Options])
  | .ok _ =>
    match env.rtspSend .Describe with
    | .err e => (.err e, [.rtspSend .Options, .rtspSend .Describe])
    | .ok _ =>
      match env.rtspSend .Setup with
      | .err e => (.err e, [.rtspSend .Options, .rtspSend .Describe, .rtspSend .Setup])
      | .ok _ =>
        match env.rtspSend .Play with
        | .err e =>
          (.err e, [.rtspSend .Options, .rtspSend .Describe, .rtspSend .Setup, .rtspSend .Play])
        | .ok _ =>
          (.ok (), [.rtspSend .Options, .rtspSend .Describe, .rtspSend .Setup, .rtspSend .Play])

/-- Actions of the transport/display setup inside the `if rtsp.response_ok`
block (src/main.rs lines 56-76) when every step succeeds. -/
def setupTrace : List Action :=
  [.rtpNew, .rtpConnect, .sdlInit, .windowCreate 640 352, .canvasCreate, .textureCreate 640 352]

/-- Whether the `if rtsp.response_ok` block fell through to the code after
it (the loop broke via quit/escape), or returned early from the function. -/
inductive BlockExit where
  | fell
  | ret (o : Outcome)
deriving DecidableEq, Repr

/-- The body of `if rtsp.response_ok` (src/main.rs lines 52-131):
`Rtp::new(None, rtsp.client_port_rtp, rtsp.server_addr_rtp.unwrap()).await?`,
`connect(Decoders::OpenH264).await?`, SDL init/video (`expect`), window build
`?`, canvas build `?`, `create_texture_static(IYUV, 640, 352)?`, event pump
(`expect`), `let mut wait_frames = 0`, then the read loop. Early `?` errors
and panics return out of the function, skipping the teardown that follows
the block; only a quit/escape break falls through to it. -/
def openBlock (env : CamEnv) (fuel : Nat) : BlockExit × List Action :=
  match env.serverAddrRtp with
  | none => (.ret (.panic unwrapMsg), [])
  | some _ =>
    match env.rtpNew with
    | .err e => (.ret (.err e), [.rtpNew])
    | .ok _ =>
      match env.rtpConnect with
      | .err e => (.ret (.err e), [.rtpNew, .rtpConnect])
      | .ok _ =>
        if env.sdlInitOk then
          if env.videoOk then
            match env.windowBuild with
            | .err e => (.ret (.err e), [.rtpNew, .rtpConnect, .sdlInit, .windowCreate 640 352])
            | .ok _ =>
              match env.canvasBuild with
              | .err e =>
                (.ret (.err e),
                 [.rtpNew, .rtpConnect, .sdlInit, .windowCreate 640 352, .canvasCreate])
              | .ok _ =>
                match env.textureBuild with
                | .err e => (.ret (.err e), setupTrace)
                | .ok _ =>
                  if env.eventPumpOk then
                    match runLoop env fuel 0 0 with
                    | (.quitBreak _, ltr) => (.fell, setupTrace ++ ltr)
                    | (.recvErr _ e, ltr) => (.ret (.err e), setupTrace ++ ltr)
                    | (.copyPanic _, ltr) => (.ret (.panic copyPanicMsg), setupTrace ++ ltr)
                    | (.fuelOut _, ltr) => (.ret .fuelOut, setupTrace ++ ltr)
                  else (.ret (.panic eventPumpMsg), setupTrace)
          else (.ret (.panic videoMsg), [.rtpNew, .rtpConnect, .sdlInit])
        else (.ret (.panic sdlInitMsg), [.rtpNew, .rtpConnect, .sdlInit])

/-- The teardown tail of `get_camera_stream` (src/main.rs lines 133-139):
`let is_ok = rtsp.send(Methods::Teardown).await?.response_ok;` followed by
`info!("Stopping RTSP: ...", is_ok)`. Note the `?`: an error from the
Teardown send itself propagates out of the function before the log. -/
def teardownStep (env : CamEnv) (tr : List Action) : Outcome × List Action :=
  match env.rtspSend .Teardown with
  | .err e => (.err e, tr ++ [.rtspSend .Teardown])
  | .ok _ => (.ok, tr ++ [.rtspSend .Teardown, .logInfoStopping env.responseOkAfterTeardown])

/-- `get_camera_stream` (src/main.rs lines 36-142): `Rtsp::new(...)?`, the
four chained sends, the `if rtsp.response_ok` transport/display/loop block,
then the Teardown tail — which is reached only by falling off the `if`
block (flag false, or loop broken by quit/escape), never by a `?` return. -/
def get_camera_stream (env : CamEnv) (fuel : Nat) : Outcome × List Action :=
  match env.rtspNew with
  | .err e => (.err e, [.rtspNew])
  | .ok _ =>
    match chainSends env with
    | (.err e, tr) => (.err e, .rtspNew :: tr)
    | (.ok _, tr) =>
      if env.responseOkAfterPlay then
        match openBlock env fuel with
        | (.fell, btr) => teardownStep env (.rtspNew :: (tr ++ btr))
        | (.ret o, btr) => (o, .rtspNew :: (tr ++ btr))
      else
        teardownStep env (.rtspNew :: tr)

/-- Actions of `main`: an ONVIF discovery send, or an action of the first
(`cam 0`, from `cam_uri_01`) or second (`cam 1`, from `cam_uri_02`) call
to `get_camera_stream`. -/
inductive MAction where
  | onvif (m : Messages) (profile : Nat)
  | cam (idx : Nat) (a : Action)
deriving DecidableEq, Repr

/-- Environment for `main`: the result of each discovery send (a stream URI
for `GetStreamURI`, opaque bytes otherwise), and one `CamEnv` per camera. -/
structure MainEnv where
  onvifSend : Messages → Nat → RResult String
  cam : Nat → CamEnv

/-- One camera's discovery block in `main` (lines 20-23 for profile 0,
lines 25-28 for profile 1): `send(Capabilities, p).await?`,
`send(DeviceInfo, p).await?`, `send(Profiles, p).await?`,
`send(GetStreamURI, p).await?`; the first three results are discarded. -/
def discoverProfile (env : MainEnv) (p : Nat) : RResult String × List MAction :=
  match env.onvifSend .Capabilities p with
  | .err e => (.err e, [.onvif .Capabilities p])
  | .ok _ =>
    match env.onvifSend .DeviceInfo p with
    | .err e => (.err e, [.onvif .Capabilities p, .onvif .DeviceInfo p])
    | .ok _ =>
      match env.onvifSend .Profiles p with
      | .err e => (.err e, [.onvif .Capabilities p, .onvif .DeviceInfo p, .onvif .Profiles p])
      | .ok _ =>
        match env.onvifSend .GetStreamURI p with
        | .err e =>
          (.err e, [.onvif .Capabilities p, .onvif .DeviceInfo p, .onvif .Profiles p,
                    .onvif .GetStreamURI p])
        | .ok uri =>
          (.ok uri, [.onvif .Capabilities p, .onvif .DeviceInfo p, .onvif .Profiles p,
                     .onvif .GetStreamURI p])

/-- `main` (src/main.rs lines 13-34): discovery for profile 0, discovery for
profile 1, then `get_camera_stream(cam_uri_01).await?` and
`get_camera_stream(cam_uri_02).await?` in that order. Every `?` makes a
failure of an earlier step return from `main` before any later step runs;
a panic aborts, and `fuelOut` means an earlier loop never returned. -/
def mainRun (env : MainEnv) (fuel : Nat) : Outcome × List MAction :=
  match discoverProfile env 0 with
  | (.err e, tr0) => (.err e, tr0)
  | (.ok _, tr0) =>
    match discoverProfile env 1 with
    | (.err e, tr1) => (.err e, tr0 ++ tr1)
    | (.ok _, tr1) =>
      match get_camera_stream (env.cam 0) fuel with
      | (.ok, c1) =>
        match get_camera_stream (env.cam 1) fuel with
        | (o2, c2) =>
          (o2, tr0 ++ tr1 ++ c1.map (MAction.cam 0) ++ c2.map (MAction.cam 1))
      | (o1, c1) => (o1, tr0 ++ tr1 ++ c1.map (MAction.cam 0))

/-- Trace of the four chained RTSP sends when they all succeed. -/
def negTrace : List Action :=
  [.rtspSend .Options, .rtspSend .Describe, .rtspSend .Setup, .rtspSend .Play]

/-- Full prefix of the trace before the read loop, when negotiation and
transport/display setup all succeed. -/
def fullPre : List Action := .rtspNew :: (negTrace ++ setupTrace)

/-- The session was negotiated: `Rtsp::new` and all four chained sends
succeeded. Together with `responseOkAfterPlay = true` this is the spec's
notion of an opened session. -/
def negotiationOk (env : CamEnv) : Prop :=
  env.rtspNew = .ok () ∧ env.rtspSend .Options = .ok () ∧ env.rtspSend .Describe = .ok () ∧
    env.rtspSend .Setup = .ok () ∧ env.rtspSend .Play = .ok ()

/-- Every transport/display setup step inside the `response_ok` block
succeeds, so control reaches the read loop. -/
def setupOk (env : CamEnv) : Prop :=
  (∃ a, env.serverAddrRtp = some a) ∧ env.rtpNew = .ok () ∧ env.rtpConnect = .ok () ∧
    env.sdlInitOk = true ∧ env.videoOk = true ∧ env.windowBuild = .ok () ∧
    env.canvasBuild = .ok () ∧ env.textureBuild = .ok () ∧ env.eventPumpOk = true

theorem chainSends_ok (env : CamEnv) (h : negotiationOk env) :
    chainSends env = (.ok (), negTrace) := by
  obtain ⟨-, h1, h2, h3, h4⟩ := h
  simp [chainSends, h1, h2, h3, h4, negTrace]

theorem openBlock_setup (env : CamEnv) (fuel : Nat) (h : setupOk env) :
    openBlock env fuel =
      (match runLoop env fuel 0 0 with
       | (.quitBreak _, ltr) => (.fell, setupTrace ++ ltr)
       | (.recvErr _ e, ltr) => (.ret (.err e), setupTrace ++ ltr)
       | (.copyPanic _, ltr) => (.ret (.panic copyPanicMsg), setupTrace ++ ltr)
       | (.fuelOut _, ltr) => (.ret .fuelOut, setupTrace ++ ltr)) := by
  obtain ⟨⟨a, ha⟩, h1, h2, h3, h4, h5, h6, h7, h8⟩ := h
  simp [openBlock, ha, h1, h2, h3, h4, h5, h6, h7, h8]

/-- With an opened session and successful setup, `get_camera_stream` is the
read loop followed by the teardown tail exactly on the quit/escape exit. -/
theorem gcs_open (env : CamEnv) (fuel : Nat) (hn : negotiationOk env)
    (hflag : env.responseOkAfterPlay = true) (hs : setupOk env) :
    get_camera_stream env fuel =
      (match runLoop env fuel 0 0 with
       | (.quitBreak _, ltr) => teardownStep env (fullPre ++ ltr)
       | (.recvErr _ e, ltr) => (.err e, fullPre ++ ltr)
       | (.copyPanic _, ltr) => (.panic copyPanicMsg, fullPre ++ ltr)
       | (.fuelOut _, ltr) => (.fuelOut, fullPre ++ ltr)) := by
  have hc := chainSends_ok env hn
  have hb := openBlock_setup env fuel hs
  obtain ⟨h0, -⟩ := hn
  simp only [get_camera_stream, h0, hc, hflag, if_true, hb]
  rcases hr : runLoop env fuel 0 0 with ⟨ex, ltr⟩
  cases ex <;> simp [fullPre, negTrace, setupTrace]

/-- The `wait_frames` variable is never modified by the loop: every recorded
value equals the value the loop was entered with. -/
theorem runLoop_wf_const (env : CamEnv) :
    ∀ fuel i wf j n, Action.iterWaitFrames j n ∈ (runLoop env fuel i wf).2 → n = wf := by
  intro fuel
  induction fuel with
  | zero => intro i wf j n h; simp [runLoop] at h
  | succ fuel ih =>
    intro i wf j n h
    by_cases hq : (env.events i).any isQuitOrEscape
    · simp [runLoop, hq] at h
      exact h.2
    · rcases hg : env.getRtp i with u | e
      · rcases hd : env.tryDecode i with f | e
        · rcases f with _ | f
          · simp [runLoop, hq, hg, hd] at h
            rcases h with h | h
            · exact h.2
            · exact ih _ _ _ _ h
          · by_cases hcp : env.copyOk i
            · simp [runLoop, hq, hg, hd, hcp] at h
              rcases h with h | h
              · exact h.2
              · exact ih _ _ _ _ h
            · simp [runLoop, hq, hg, hd, hcp] at h
              exact h.2
        · simp [runLoop, hq, hg, hd] at h
          rcases h with h | h
          · exact h.2
          · exact ih _ _ _ _ h
      · simp [runLoop, hq, hg] at h
        exact h.2

/-- Iteration index carried by a loop-body action; `none` for actions that
the read loop never emits. -/
def actionIdx : Action → Option Nat
  | .iterWaitFrames i _ => some i
  | .pollEvents i => some i
  | .rtpGet i => some i
  | .tryDecode i => some i
  | .logDebugDecoded i => some i
  | .textureUpdate i => some i
  | .canvasClear i => some i
  | .canvasCopy i => some i
  | .canvasPresent i => some i
  | .logDebugNoDecode i => some i
  | .logWarnDecodeErr i => some i
  | _ => none

/-- Every action emitted by the read loop is a loop-body action of some
iteration at or after the starting iteration. -/
theorem runLoop_idx_ge (env : CamEnv) :
    ∀ fuel i wf a, a ∈ (runLoop env fuel i wf).2 → ∃ j, actionIdx a = some j ∧ i ≤ j := by
  intro fuel
  induction fuel with
  | zero => intro i wf a h; simp [runLoop] at h
  | succ fuel ih =>
    intro i wf a h
    by_cases hq : (env.events i).any isQuitOrEscape
    · simp [runLoop, hq] at h
      rcases h with rfl | rfl <;> exact ⟨i, rfl, le_refl i⟩
    · rcases hg : env.getRtp i with u | e
      · rcases hd : env.tryDecode i with f | e
        · rcases f with _ | f
          · simp [runLoop, hq, hg, hd] at h
            rcases h with rfl | rfl | rfl | rfl | rfl | h
            · exact ⟨i, rfl, le_refl i⟩
            · exact ⟨i, rfl, le_refl i⟩
            · exact ⟨i, rfl, le_refl i⟩
            · exact ⟨i, rfl, le_refl i⟩
            · exact ⟨i, rfl, le_refl i⟩
            · obtain ⟨j, hj, hij⟩ := ih _ _ _ h
              exact ⟨j, hj, le_trans (Nat.le_succ i) hij⟩
          · by_cases hcp : env.copyOk i
            · simp [runLoop, hq, hg, hd, hcp] at h
              rcases h with rfl | rfl | rfl | rfl | rfl | rfl | rfl | rfl | rfl | h
              · exact ⟨i, rfl, le_refl i⟩
              · exact ⟨i, rfl, le_refl i⟩
              · exact ⟨i, rfl, le_refl i⟩
              · exact ⟨i, rfl, le_refl i⟩
              · exact ⟨i, rfl, le_refl i⟩
              · exact ⟨i, rfl, le_refl i⟩
              · exact ⟨i, rfl, le_refl i⟩
              · exact ⟨i, rfl, le_refl i⟩
              · exact ⟨i, rfl, le_refl i⟩
              · obtain ⟨j, hj, hij⟩ := ih _ _ _ h
                exact ⟨j, hj, le_trans (Nat.le_succ i) hij⟩
            · simp [runLoop, hq, hg, hd, hcp] at h
              rcases h with rfl | rfl | rfl | rfl | rfl | rfl | rfl | rfl
              · exact ⟨i, rfl, le_refl i⟩
              · exact ⟨i, rfl, le_refl i⟩
              · exact ⟨i, rfl, le_refl i⟩
              · exact ⟨i, rfl, le_refl i⟩
              · exact ⟨i, rfl, le_refl i⟩
              · exact ⟨i, rfl, le_refl i⟩
              · exact ⟨i, rfl, le_refl i⟩
              · exact ⟨i, rfl, le_refl i⟩
        · simp [runLoop, hq, hg, hd] at h
          rcases h with rfl | rfl | rfl | rfl | rfl | h
          · exact ⟨i, rfl, le_refl i⟩
          · exact ⟨i, rfl, le_refl i⟩
          · exact ⟨i, rfl, le_refl i⟩
          · exact ⟨i, rfl, le_refl i⟩
          · exact ⟨i, rfl, le_refl i⟩
          · obtain ⟨j, hj, hij⟩ := ih _ _ _ h
            exact ⟨j, hj, le_trans (Nat.le_succ i) hij⟩
      · simp [runLoop, hq, hg] at h
        rcases h with rfl | rfl | rfl
        · exact ⟨i, rfl, le_refl i⟩
        · exact ⟨i, rfl, le_refl i⟩
        · exact ⟨i, rfl, le_refl i⟩

/-- The read loop never issues an RTSP send; in particular no Teardown. -/
theorem runLoop_no_rtspSend (env : CamEnv) (fuel i wf : Nat) (m : Methods) :
    Action.rtspSend m ∉ (runLoop env fuel i wf).2 := by
  intro h
  obtain ⟨j, hj, -⟩ := runLoop_idx_ge env fuel i wf _ h
  simp [actionIdx] at hj

/-- The read loop never creates a texture. -/
theorem runLoop_no_textureCreate (env : CamEnv) (fuel i wf w ht : Nat) :
    Action.textureCreate w ht ∉ (runLoop env fuel i wf).2 := by
  intro h
  obtain ⟨j, hj, -⟩ := runLoop_idx_ge env fuel i wf _ h
  simp [actionIdx] at hj

/-- An environment in which every external call succeeds, the negotiated
flag is true, and the user quits at the first loop iteration. Variants of
this environment (via structure update) drive the concrete scenarios. -/
def okEnv : CamEnv where
  rtspNew := .ok ()
  rtspSend := fun _ => .ok ()
  responseOkAfterPlay := true
  responseOkAfterTeardown := true
  clientPortRtp := 5004
  serverAddrRtp := some "192.168.1.64"
  rtpNew := .ok ()
  rtpConnect := .ok ()
  sdlInitOk := true
  videoOk := true
  windowBuild := .ok ()
  canvasBuild := .ok ()
  textureBuild := .ok ()
  eventPumpOk := true
  videoDim := (640, 352)
  events := fun _ => [.quit]
  getRtp := fun _ => .ok ()
  tryDecode := fun _ => .ok none
  updateYuv := fun _ => .ok ()
  copyOk := fun _ => true

theorem okEnv_negotiationOk : negotiationOk okEnv := ⟨rfl, rfl, rfl, rfl, rfl⟩

theorem okEnv_setupOk : setupOk okEnv :=
  ⟨⟨"192.168.1.64", rfl⟩, rfl, rfl, rfl, rfl, rfl, rfl, rfl, rfl⟩

/-- Same opened session, but the first `get_rtp().await?` receive fails. -/
def envRecvErr : CamEnv :=
  { okEnv with events := fun _ => [], getRtp := fun _ => .err "connection reset" }

theorem envRecvErr_negotiationOk : negotiationOk envRecvErr := ⟨rfl, rfl, rfl, rfl, rfl⟩

theorem envRecvErr_setupOk : setupOk envRecvErr :=
  ⟨⟨"192.168.1.64", rfl⟩, rfl, rfl, rfl, rfl, rfl, rfl, rfl, rfl⟩

/-- The teardown tail always records exactly one Teardown send on top of
a prefix that contains none. -/
theorem teardownStep_count (env : CamEnv) (tr : List Action)
    (h : tr.count (Action.rtspSend .Teardown) = 0) :
    (teardownStep env tr).2.count (Action.rtspSend .Teardown) = 1 := by
  rcases ht : env.rtspSend .Teardown with u | e <;>
    simp [teardownStep, ht, List.count_append, List.count_cons, h]

/-- C1: the claim states that for every opened session (all four
session-control sends succeeded and `response_ok` was true) the Teardown
request is issued exactly once before `get_camera_stream` returns,
regardless of whether the loop exited via quit/escape, a receive error, or
a paint error. Counterexample: in `envRecvErr` the session is fully opened,
the first receive fails, and the `?` on `get_rtp()` propagates the error
straight out of `get_camera_stream` — the trace contains no Teardown send
at all. -/
theorem C1_counterexample :
    negotiationOk envRecvErr ∧ envRecvErr.responseOkAfterPlay = true ∧
      (get_camera_stream envRecvErr 3).1 = .err "connection reset" ∧
      (get_camera_stream envRecvErr 3).2.count (Action.rtspSend .Teardown) = 0 := by
  refine ⟨envRecvErr_negotiationOk, rfl, ?_, ?_⟩ <;> decide

/-- C1 (amended): for every opened session, Teardown is issued exactly once
when the capture loop exits via a quit/escape event; but on a transport
receive error the error propagates out of `get_camera_stream` immediately
and Teardown is never issued, and on a paint (surface-copy) failure the
process panics and Teardown is never issued. -/
theorem C1_amended (env : CamEnv) (fuel : Nat) (hn : negotiationOk env)
    (hflag : env.responseOkAfterPlay = true) (hs : setupOk env) :
    ((∃ i, (runLoop env fuel 0 0).1 = .quitBreak i) →
      (get_camera_stream env fuel).2.count (Action.rtspSend .Teardown) = 1) ∧
    (∀ i e, (runLoop env fuel 0 0).1 = .recvErr i e →
      (get_camera_stream env fuel).1 = .err e ∧
      (get_camera_stream env fuel).2.count (Action.rtspSend .Teardown) = 0) ∧
    (∀ i, (runLoop env fuel 0 0).1 = .copyPanic i →
      (get_camera_stream env fuel).1 = .panic copyPanicMsg ∧
      (get_camera_stream env fuel).2.count (Action.rtspSend .Teardown) = 0) := by
  have hg := gcs_open env fuel hn hflag hs
  rcases hr : runLoop env fuel 0 0 with ⟨ex, ltr⟩
  rw [hr] at hg
  have hltr : Action.rtspSend .Teardown ∉ ltr := by
    have h0 := runLoop_no_rtspSend env fuel 0 0 .Teardown
    rw [hr] at h0; exact h0
  have hcount0 : (fullPre ++ ltr).count (Action.rtspSend .Teardown) = 0 := by
    rw [List.count_append]
    have h1 : fullPre.count (Action.rtspSend .Teardown) = 0 := by decide
    have h2 := List.count_eq_zero.mpr hltr
    omega
  cases ex with
  | quitBreak i =>
    refine ⟨fun _ => ?_, fun j e hc => by simp at hc, fun j hc => by simp at hc⟩
    rw [hg]
    exact teardownStep_count env _ hcount0
  | recvErr i e =>
    refine ⟨fun hc => by obtain ⟨j, hj⟩ := hc; simp at hj, fun j eb hc => ?_,
      fun j hc => by simp at hc⟩
    simp only [LoopExit.recvErr.injEq] at hc
    rw [hg]
    exact ⟨by rw [hc.2], hcount0⟩
  | copyPanic i =>
    refine ⟨fun hc => by obtain ⟨j, hj⟩ := hc; simp at hj, fun j e hc => by simp at hc,
      fun j hc => ?_⟩
    rw [hg]
    exact ⟨rfl, hcount0⟩
  | fuelOut i =>
    exact ⟨fun hc => by obtain ⟨j, hj⟩ := hc; simp at hj, fun j e hc => by simp at hc,
      fun j hc => by simp at hc⟩

/-- C1 witness: in the all-success environment the user quits at iteration
0 and the trace contains exactly one Teardown send. -/
theorem C1_witness :
    (get_camera_stream okEnv 2).2.count (Action.rtspSend .Teardown) = 1 :=
  (C1_amended okEnv 2 okEnv_negotiationOk rfl okEnv_setupOk).1 ⟨0, by decide⟩

/-- Every action of one camera's discovery block is an ONVIF send carrying
that camera's profile index. -/
theorem discoverProfile_actions (env : MainEnv) (p : Nat) (a : MAction)
    (h : a ∈ (discoverProfile env p).2) : ∃ m, a = .onvif m p := by
  rcases h1 : env.onvifSend .Capabilities p with u | e
  · rcases h2 : env.onvifSend .DeviceInfo p with u2 | e2
    · rcases h3 : env.onvifSend .Profiles p with u3 | e3
      · rcases h4 : env.onvifSend .GetStreamURI p with u4 | e4
        · simp [discoverProfile, h1, h2, h3, h4] at h
          rcases h with rfl | rfl | rfl | rfl
          exacts [⟨_, rfl⟩, ⟨_, rfl⟩, ⟨_, rfl⟩, ⟨_, rfl⟩]
        · simp [discoverProfile, h1, h2, h3, h4] at h
          rcases h with rfl | rfl | rfl | rfl
          exacts [⟨_, rfl⟩, ⟨_, rfl⟩, ⟨_, rfl⟩, ⟨_, rfl⟩]
      · simp [discoverProfile, h1, h2, h3] at h
        rcases h with rfl | rfl | rfl
        exacts [⟨_, rfl⟩, ⟨_, rfl⟩, ⟨_, rfl⟩]
    · simp [discoverProfile, h1, h2] at h
      rcases h with rfl | rfl
      exacts [⟨_, rfl⟩, ⟨_, rfl⟩]
  · simp [discoverProfile, h1] at h
    subst h
    exact ⟨_, rfl⟩

/-- Environment for `main` in which the very first discovery send of the
first camera fails, and everything else would succeed. -/
def envM2 : MainEnv where
  onvifSend := fun m p =>
    match m, p with
    | .Capabilities, 0 => .err "auth failed"
    | _, _ => .ok "rtsp uri"
  cam := fun _ => okEnv

/-- C2: the claim states that a discovery failure for one camera never
prevents the other camera's pipeline from starting, each camera reported
independently. Counterexample: in `envM2` the first camera's first
discovery send fails and the `?` in `main` returns at once — the whole
trace is that single failed send; the second camera's discovery and
pipeline never start and no independent per-camera report exists. -/
theorem C2_counterexample :
    mainRun envM2 3 = (.err "auth failed", [MAction.onvif .Capabilities 0]) ∧
      MAction.cam 1 Action.rtspNew ∉ (mainRun envM2 3).2 := by
  constructor <;> decide

/-- C2 (amended): a discovery failure for either camera aborts `main`
before any capture pipeline starts: `main` returns that error and its trace
contains no `get_camera_stream` action for either camera. -/
theorem C2_amended (env : MainEnv) (fuel : Nat)
    (h : (∃ e, (discoverProfile env 0).1 = .err e) ∨
      (∃ e, (discoverProfile env 1).1 = .err e)) :
    (∃ e, (mainRun env fuel).1 = .err e) ∧
      ∀ k a, MAction.cam k a ∉ (mainRun env fuel).2 := by
  rcases r0 : discoverProfile env 0 with ⟨res0, tr0⟩
  cases res0 with
  | err e =>
    have hm : mainRun env fuel = (.err e, tr0) := by simp [mainRun, r0]
    refine ⟨⟨e, by rw [hm]⟩, fun k a hmem => ?_⟩
    rw [hm] at hmem
    obtain ⟨m, hma⟩ := discoverProfile_actions env 0 _ (by rw [r0]; exact hmem)
    simp at hma
  | ok uri0 =>
    rcases r1 : discoverProfile env 1 with ⟨res1, tr1⟩
    cases res1 with
    | err e =>
      have hm : mainRun env fuel = (.err e, tr0 ++ tr1) := by simp [mainRun, r0, r1]
      refine ⟨⟨e, by rw [hm]⟩, fun k a hmem => ?_⟩
      rw [hm] at hmem
      simp only [List.mem_append] at hmem
      rcases hmem with hmem | hmem
      · obtain ⟨m, hma⟩ := discoverProfile_actions env 0 _ (by rw [r0]; exact hmem)
        simp at hma
      · obtain ⟨m, hma⟩ := discoverProfile_actions env 1 _ (by rw [r1]; exact hmem)
        simp at hma
    | ok uri1 =>
      exfalso
      rcases h with ⟨e, he⟩ | ⟨e, he⟩
      · rw [r0] at he; simp at he
      · rw [r1] at he; simp at he

/-- C2 witness: applying the amended theorem to the concrete failing
environment. -/
theorem C2_witness : ∃ e, (mainRun envM2 3).1 = .err e :=
  (C2_amended envM2 3 (Or.inl ⟨"auth failed", by decide⟩)).1

/-- Decidability of the negotiation predicate, for stating counts. -/
instance (env : CamEnv) : Decidable (negotiationOk env) := by
  unfold negotiationOk; infer_instance

/-- Opened session but the `Options` send fails at once. -/
def envOptionsErr : CamEnv :=
  { okEnv with
    rtspSend := fun m =>
      match m with
      | .Options => .err "options io"
      | _ => .ok () }

/-- C3: the claim states that when any of the four session-control sends
fails (or `response_ok` is false), the receiver and display are never
constructed, and Teardown is still attempted exactly once iff at least the
Options step was issued. Counterexample: in `envOptionsErr` the Options
send is issued and fails; the `?` propagates the error and Teardown is
never attempted, although Options was issued. -/
theorem C3_counterexample :
    get_camera_stream envOptionsErr 3 = (.err "options io", [.rtspNew, .rtspSend .Options]) ∧
      Action.rtspSend .Options ∈ (get_camera_stream envOptionsErr 3).2 ∧
      (get_camera_stream envOptionsErr 3).2.count (Action.rtspSend .Teardown) = 0 := by
  refine ⟨?_, ?_, ?_⟩ <;> decide

/-- C3 (amended): when negotiation does not fully succeed with a true
`response_ok` flag, the transport receiver and the display surface are
never constructed, and Teardown is attempted exactly once iff all four
sends (after a successful `Rtsp::new`) succeeded — a send failure
propagates its error and skips Teardown entirely. -/
theorem C3_amended (env : CamEnv) (fuel : Nat)
    (h : ¬(negotiationOk env ∧ env.responseOkAfterPlay = true)) :
    Action.rtpNew ∉ (get_camera_stream env fuel).2 ∧
      (∀ w ht, Action.windowCreate w ht ∉ (get_camera_stream env fuel).2) ∧
      (∀ w ht, Action.textureCreate w ht ∉ (get_camera_stream env fuel).2) ∧
      (get_camera_stream env fuel).2.count (Action.rtspSend .Teardown) =
        (if negotiationOk env then 1 else 0) := by
  rcases h0 : env.rtspNew with u | e
  · rcases h1 : env.rtspSend .Options with u1 | e1
    · rcases h2 : env.rtspSend .Describe with u2 | e2
      · rcases h3 : env.rtspSend .Setup with u3 | e3
        · rcases h4 : env.rtspSend .Play with u4 | e4
          · have hn : negotiationOk env := ⟨h0, h1, h2, h3, h4⟩
            have hflag : env.responseOkAfterPlay = false := by
              rcases hb : env.responseOkAfterPlay
              · rfl
              · exact absurd ⟨hn, hb⟩ h
            have hc := chainSends_ok env hn
            have hm : get_camera_stream env fuel = teardownStep env (.rtspNew :: negTrace) := by
              simp [get_camera_stream, h0, hc, hflag]
            rw [hm, if_pos hn]
            rcases ht : env.rtspSend .Teardown with ut | et <;>
              simp [teardownStep, ht, negTrace, List.count_cons]
          · have hm : get_camera_stream env fuel =
                (.err e4, [.rtspNew, .rtspSend .Options, .rtspSend .Describe, .rtspSend .Setup,
                  .rtspSend .Play]) := by
              simp [get_camera_stream, chainSends, h0, h1, h2, h3, h4]
            rw [hm, if_neg (by simp [negotiationOk, h4])]
            refine ⟨by simp, fun w ht => by simp, fun w ht => by simp, by simp [List.count_cons]⟩
        · have hm : get_camera_stream env fuel =
              (.err e3, [.rtspNew, .rtspSend .Options, .rtspSend .Describe, .rtspSend .Setup]) := by
            simp [get_camera_stream, chainSends, h0, h1, h2, h3]
          rw [hm, if_neg (by simp [negotiationOk, h3])]
          refine ⟨by simp, fun w ht => by simp, fun w ht => by simp, by simp [List.count_cons]⟩
      · have hm : get_camera_stream env fuel =
            (.err e2, [.rtspNew, .rtspSend .Options, .rtspSend .Describe]) := by
          simp [get_camera_stream, chainSends, h0, h1, h2]
        rw [hm, if_neg (by simp [negotiationOk, h2])]
        refine ⟨by simp, fun w ht => by simp, fun w ht => by simp, by simp [List.count_cons]⟩
    · have hm : get_camera_stream env fuel = (.err e1, [.rtspNew, .rtspSend .Options]) := by
        simp [get_camera_stream, chainSends, h0, h1]
      rw [hm, if_neg (by simp [negotiationOk, h1])]
      refine ⟨by simp, fun w ht => by simp, fun w ht => by simp, by simp [List.count_cons]⟩
  · have hm : get_camera_stream env fuel = (.err e, [.rtspNew]) := by
      simp [get_camera_stream, h0]
    rw [hm, if_neg (by simp [negotiationOk, h0])]
    refine ⟨by simp, fun w ht => by simp, fun w ht => by simp, by simp [List.count_cons]⟩

/-- C3 witness: a negotiation whose `Play` response is not OK constructs
nothing and tears down exactly once. -/
theorem C3_witness :
    (get_camera_stream { okEnv with responseOkAfterPlay := false } 3).2.count
        (Action.rtspSend .Teardown) = 1 := by
  have h := (C3_amended { okEnv with responseOkAfterPlay := false } 3 (by decide)).2.2.2
  rw [h, if_pos ⟨rfl, rfl, rfl, rfl, rfl⟩]

/-- Opened negotiation whose `Play` response flag is false and whose
Teardown send itself fails. -/
def envTeardownErr : CamEnv :=
  { okEnv with
    responseOkAfterPlay := false
    rtspSend := fun m =>
      match m with
      | .Teardown => .err "teardown io"
      | _ => .ok () }

/-- C4: the claim states that a teardown failure (error from the Teardown
send or a not-OK teardown response) is only logged and never makes
`get_camera_stream` return an error. Counterexample: in `envTeardownErr`
the Teardown request is issued, its send fails, and the `?` on
`send(Teardown).await?` makes `get_camera_stream` return exactly that
error. -/
theorem C4_counterexample :
    Action.rtspSend .Teardown ∈ (get_camera_stream envTeardownErr 3).2 ∧
      (get_camera_stream envTeardownErr 3).1 = .err "teardown io" := by
  constructor <;> decide

/-- C4 (amended): a not-OK Teardown *response* is only logged (the final
status log records the flag and the function returns success), but an error
from the Teardown *send* itself is propagated as the return value of
`get_camera_stream`. Stated on the negotiate-then-flag-false path, which
always reaches the teardown tail. -/
theorem C4_amended (env : CamEnv) (fuel : Nat) (hn : negotiationOk env)
    (hflag : env.responseOkAfterPlay = false) :
    (env.rtspSend .Teardown = .ok () →
      (get_camera_stream env fuel).1 = .ok ∧
        Action.logInfoStopping env.responseOkAfterTeardown ∈ (get_camera_stream env fuel).2) ∧
    (∀ e, env.rtspSend .Teardown = .err e → (get_camera_stream env fuel).1 = .err e) := by
  have hc := chainSends_ok env hn
  obtain ⟨h0, -⟩ := hn
  have hm : get_camera_stream env fuel = teardownStep env (.rtspNew :: negTrace) := by
    simp [get_camera_stream, h0, hc, hflag]
  rw [hm]
  constructor
  · intro ht
    simp [teardownStep, ht]
  · intro e ht
    simp [teardownStep, ht]

/-- C4 witness: a session whose Teardown response flag is false still makes
`get_camera_stream` return success. -/
theorem C4_witness :
    (get_camera_stream
        { okEnv with responseOkAfterPlay := false, responseOkAfterTeardown := false } 3).1 =
      .ok :=
  ((C4_amended { okEnv with responseOkAfterPlay := false, responseOkAfterTeardown := false } 3
    ⟨rfl, rfl, rfl, rfl, rfl⟩ rfl).1 rfl).1

/-- Every action in a `chainSends` trace is one of the four sends. -/
theorem chainSends_mem (env : CamEnv) (a : Action) (h : a ∈ (chainSends env).2) :
    a ∈ negTrace := by
  rcases h1 : env.rtspSend .Options with u1 | e1
  · rcases h2 : env.rtspSend .Describe with u2 | e2
    · rcases h3 : env.rtspSend .Setup with u3 | e3
      · rcases h4 : env.rtspSend .Play with u4 | e4
        · simp [chainSends, h1, h2, h3, h4] at h
          rcases h with rfl | rfl | rfl | rfl <;> simp [negTrace]
        · simp [chainSends, h1, h2, h3, h4] at h
          rcases h with rfl | rfl | rfl | rfl <;> simp [negTrace]
      · simp [chainSends, h1, h2, h3] at h
        rcases h with rfl | rfl | rfl <;> simp [negTrace]
    · simp [chainSends, h1, h2] at h
      rcases h with rfl | rfl <;> simp [negTrace]
  · simp [chainSends, h1] at h
    subst h
    simp [negTrace]

/-- Every action in an `openBlock` trace is a setup action or a loop-body
action. -/
theorem openBlock_mem (env : CamEnv) (fuel : Nat) (a : Action)
    (h : a ∈ (openBlock env fuel).2) :
    a ∈ setupTrace ∨ a ∈ (runLoop env fuel 0 0).2 := by
  rcases hsa : env.serverAddrRtp with _ | addr
  · simp [openBlock, hsa] at h
  · rcases h1 : env.rtpNew with u1 | e1
    · rcases h2 : env.rtpConnect with u2 | e2
      · rcases hsdl : env.sdlInitOk
        · simp [openBlock, hsa, h1, h2, hsdl, setupTrace] at h ⊢
          tauto
        · rcases hvid : env.videoOk
          · simp [openBlock, hsa, h1, h2, hsdl, hvid, setupTrace] at h ⊢
            tauto
          · rcases hw : env.windowBuild with uw | ew
            · rcases hcv : env.canvasBuild with uc | ec
              · rcases htx : env.textureBuild with ut | et
                · rcases hep : env.eventPumpOk
                  · simp [openBlock, hsa, h1, h2, hsdl, hvid, hw, hcv, htx, hep,
                      setupTrace] at h ⊢
                    tauto
                  · have hset : setupOk env :=
                      ⟨⟨addr, hsa⟩, h1, h2, hsdl, hvid, hw, hcv, htx, hep⟩
                    rw [openBlock_setup env fuel hset] at h
                    revert h
                    rcases runLoop env fuel 0 0 with ⟨ex, ltr⟩
                    intro h
                    cases ex <;> exact (List.mem_append.mp h).imp id id
                · simp [openBlock, hsa, h1, h2, hsdl, hvid, hw, hcv, htx, setupTrace] at h ⊢
                  tauto
              · simp [openBlock, hsa, h1, h2, hsdl, hvid, hw, hcv, setupTrace] at h ⊢
                tauto
            · simp [openBlock, hsa, h1, h2, hsdl, hvid, hw, setupTrace] at h ⊢
              tauto
      · simp [openBlock, hsa, h1, h2, setupTrace] at h ⊢
        tauto
    · simp [openBlock, hsa, h1, setupTrace] at h ⊢
      tauto

/-- Every action in a `teardownStep` trace is in the prefix, the Teardown
send, or the final status log. -/
theorem teardownStep_mem (env : CamEnv) (tr : List Action) (a : Action)
    (h : a ∈ (teardownStep env tr).2) :
    a ∈ tr ∨ a = .rtspSend .Teardown ∨ ∃ b, a = .logInfoStopping b := by
  rcases ht : env.rtspSend .Teardown with ut | et
  · simp [teardownStep, ht] at h
    rcases h with h | rfl | rfl
    · exact Or.inl h
    · exact Or.inr (Or.inl rfl)
    · exact Or.inr (Or.inr ⟨_, rfl⟩)
  · simp [teardownStep, ht] at h
    rcases h with h | rfl
    · exact Or.inl h
    · exact Or.inr (Or.inl rfl)

/-- Classification of every action a `get_camera_stream` trace can contain:
the `Rtsp::new`, one of the four chained sends, a transport/display setup
action, a loop-body action of this run, the Teardown send, or the final
status log. -/
theorem gcs_mem (env : CamEnv) (fuel : Nat) (a : Action)
    (h : a ∈ (get_camera_stream env fuel).2) :
    a = .rtspNew ∨ a ∈ negTrace ∨ a ∈ setupTrace ∨ a ∈ (runLoop env fuel 0 0).2 ∨
      a = .rtspSend .Teardown ∨ ∃ b, a = .logInfoStopping b := by
  rcases h0 : env.rtspNew with u | e
  · rcases hcs : chainSends env with ⟨res, tr⟩
    have htr : ∀ x, x ∈ tr → x ∈ negTrace := by
      intro x hx
      apply chainSends_mem env x
      rw [hcs]
      exact hx
    cases res with
    | err e =>
      simp [get_camera_stream, h0, hcs] at h
      rcases h with rfl | h
      · exact Or.inl rfl
      · exact Or.inr (Or.inl (htr _ h))
    | ok u2 =>
      rcases hflag : env.responseOkAfterPlay
      · simp only [get_camera_stream, h0, hcs, hflag, Bool.false_eq_true, if_false] at h
        rcases teardownStep_mem env _ _ h with hx | hx | hx
        · rcases List.mem_cons.mp hx with rfl | hx
          · exact Or.inl rfl
          · exact Or.inr (Or.inl (htr _ hx))
        · exact Or.inr (Or.inr (Or.inr (Or.inr (Or.inl hx))))
        · exact Or.inr (Or.inr (Or.inr (Or.inr (Or.inr hx))))
      · rcases hob : openBlock env fuel with ⟨bex, btr⟩
        have hbm : ∀ x, x ∈ btr → x ∈ setupTrace ∨ x ∈ (runLoop env fuel 0 0).2 := by
          intro x hx
          apply openBlock_mem env fuel x
          rw [hob]
          exact hx
        cases bex with
        | fell =>
          simp only [get_camera_stream, h0, hcs, hob, hflag, if_true] at h
          rcases teardownStep_mem env _ _ h with hx | hx | hx
          · rcases List.mem_cons.mp hx with rfl | hx
            · exact Or.inl rfl
            · rcases List.mem_append.mp hx with hx | hx
              · exact Or.inr (Or.inl (htr _ hx))
              · rcases hbm _ hx with hx | hx
                · exact Or.inr (Or.inr (Or.inl hx))
                · exact Or.inr (Or.inr (Or.inr (Or.inl hx)))
          · exact Or.inr (Or.inr (Or.inr (Or.inr (Or.inl hx))))
          · exact Or.inr (Or.inr (Or.inr (Or.inr (Or.inr hx))))
        | ret o =>
          simp only [get_camera_stream, h0, hcs, hob, hflag, if_true] at h
          rcases List.mem_cons.mp h with rfl | hx
          · exact Or.inl rfl
          · rcases List.mem_append.mp hx with hx | hx
            · exact Or.inr (Or.inl (htr _ hx))
            · rcases hbm _ hx with hx | hx
              · exact Or.inr (Or.inr (Or.inl hx))
              · exact Or.inr (Or.inr (Or.inr (Or.inl hx)))
  · simp [get_camera_stream, h0] at h
    subst h
    exact Or.inl rfl

/-- Opened session for a high-definition stream: the negotiated video
dimensions are 1920x1080, and the user quits at the first iteration. -/
def envHD : CamEnv := { okEnv with videoDim := (1920, 1080) }

/-- C5: the claim states that the texture into which decoded planes are
copied is sized to the negotiated video dimensions of the stream, for every
stream regardless of its resolution. Counterexample: for a 1920x1080
stream the code still calls `create_texture_static(IYUV, 640, 352)` — the
trace contains a 640x352 texture creation and no 1920x1080 one. -/
theorem C5_counterexample :
    envHD.videoDim = (1920, 1080) ∧
      Action.textureCreate 640 352 ∈ (get_camera_stream envHD 2).2 ∧
      Action.textureCreate 1920 1080 ∉ (get_camera_stream envHD 2).2 := by
  refine ⟨rfl, ?_, ?_⟩ <;> decide

/-- C5 (amended): whenever the display texture is created, it is created at
the fixed, hardcoded dimensions 640x352, regardless of the stream's
negotiated video dimensions. -/
theorem C5_amended (env : CamEnv) (fuel w ht : Nat)
    (h : Action.textureCreate w ht ∈ (get_camera_stream env fuel).2) :
    w = 640 ∧ ht = 352 := by
  rcases gcs_mem env fuel _ h with hx | hx | hx | hx | hx | ⟨b, hx⟩
  · simp at hx
  · simp [negTrace] at hx
  · simp [setupTrace] at hx
    exact hx
  · exact absurd hx (runLoop_no_textureCreate env fuel 0 0 w ht)
  · simp at hx
  · simp at hx

/-- C5 witness: applying the amended theorem to the created texture of the
high-definition run. -/
theorem C5_witness : 640 = 640 ∧ 352 = 352 :=
  C5_amended envHD 2 640 352 (by decide)

/-- No action whose iteration index is below the loop's starting iteration
can appear in the loop's trace. -/
theorem runLoop_no_idx_lt (env : CamEnv) (fuel i0 wf : Nat) (a : Action) (j : Nat)
    (ha : actionIdx a = some j) (hj : j < i0) : a ∉ (runLoop env fuel i0 wf).2 := by
  intro h
  obtain ⟨k, hk, hik⟩ := runLoop_idx_ge env fuel i0 wf a h
  rw [ha] at hk
  injection hk with hk
  omega

/-- Session opens, a frame decodes at iteration 0, the texture update
fails, and the loop keeps running until a quit at iteration 2. -/
def envUpdateErr : CamEnv :=
  { okEnv with
    events := fun i => if i ≤ 1 then [] else [.quit]
    tryDecode := fun i => if i = 0 then .ok (some ⟨640, 320, 320⟩) else .ok none
    updateYuv := fun _ => .err "texture update failed" }

/-- C6: the claim states that a failure in any paint step (texture update,
surface copy, or present) terminates the capture loop and triggers the
teardown path. Counterexample: in `envUpdateErr` the texture update of the
frame decoded at iteration 0 fails, yet the loop polls events again at
iteration 1 (it did not terminate) and the run ends normally — the
`update_yuv` result is discarded into `_result` by the code. -/
theorem C6_counterexample :
    envUpdateErr.updateYuv 0 = .err "texture update failed" ∧
      Action.textureUpdate 0 ∈ (get_camera_stream envUpdateErr 4).2 ∧
      Action.pollEvents 1 ∈ (get_camera_stream envUpdateErr 4).2 ∧
      (get_camera_stream envUpdateErr 4).1 = .ok := by
  refine ⟨rfl, ?_, ?_, ?_⟩ <;> decide

/-- C6 (amended): of the three paint steps, only a surface-copy failure is
fatal — and it aborts the whole process by panic without reaching the
teardown path; a texture-update failure is silently ignored (the iteration
completes and the loop continues identically, whatever `update_yuv`
returned); present cannot fail. -/
theorem C6_amended (env : CamEnv) (fuel i wf : Nat) (f : Frame)
    (hq : (env.events i).any isQuitOrEscape = false)
    (hr : env.getRtp i = .ok ())
    (hd : env.tryDecode i = .ok (some f)) :
    (env.copyOk i = true →
      runLoop env (fuel + 1) i wf =
        ((runLoop env fuel (i + 1) wf).1,
          [.iterWaitFrames i wf, .pollEvents i, .rtpGet i, .tryDecode i, .logDebugDecoded i,
            .textureUpdate i, .canvasClear i, .canvasCopy i, .canvasPresent i] ++
            (runLoop env fuel (i + 1) wf).2)) ∧
    (env.copyOk i = false →
      runLoop env (fuel + 1) i wf =
        (.copyPanic i,
          [.iterWaitFrames i wf, .pollEvents i, .rtpGet i, .tryDecode i, .logDebugDecoded i,
            .textureUpdate i, .canvasClear i, .canvasCopy i])) ∧
    (∀ j, negotiationOk env → env.responseOkAfterPlay = true → setupOk env →
      (runLoop env fuel 0 0).1 = .copyPanic j →
      (get_camera_stream env fuel).1 = .panic copyPanicMsg ∧
        (get_camera_stream env fuel).2.count (Action.rtspSend .Teardown) = 0) := by
  refine ⟨fun hcp => by simp [runLoop, hq, hr, hd, hcp], fun hcp => by
    simp [runLoop, hq, hr, hd, hcp], ?_⟩
  intro j hn hflag hs hexit
  have hg := gcs_open env fuel hn hflag hs
  rcases hrl : runLoop env fuel 0 0 with ⟨ex, ltr⟩
  rw [hrl] at hg hexit
  have hltr : ltr.count (Action.rtspSend .Teardown) = 0 := by
    apply List.count_eq_zero.mpr
    have h3 := runLoop_no_rtspSend env fuel 0 0 .Teardown
    rw [hrl] at h3
    exact h3
  cases ex with
  | copyPanic k =>
    rw [hg]
    refine ⟨rfl, ?_⟩
    rw [List.count_append]
    have h1 : fullPre.count (Action.rtspSend .Teardown) = 0 := by decide
    omega
  | quitBreak k => simp at hexit
  | recvErr k e => simp at hexit
  | fuelOut k => simp at hexit

/-- Session opens, every packet decodes to a frame, and the surface copy
fails at the first paint. -/
def envCopyErr : CamEnv :=
  { okEnv with
    events := fun _ => []
    tryDecode := fun _ => .ok (some ⟨640, 320, 320⟩)
    copyOk := fun _ => false }

/-- C6 witness: the copy failure at iteration 0 stops the loop by panic,
with the paint sequence cut off after the copy. -/
theorem C6_witness :
    runLoop envCopyErr 1 0 0 =
      (.copyPanic 0,
        [.iterWaitFrames 0 0, .pollEvents 0, .rtpGet 0, .tryDecode 0, .logDebugDecoded 0,
          .textureUpdate 0, .canvasClear 0, .canvasCopy 0]) :=
  (C6_amended envCopyErr 0 0 0 ⟨640, 320, 320⟩ rfl rfl rfl).2.1 rfl

/-- An action at iteration `i0` is at or after `i` only trivially bounded;
helper for the quit lemma. -/
theorem head_idx_ok (i0 i : Nat) (hlt : i0 < i) (a : Action)
    (ha : actionIdx a = some i0) :
    (∃ j, actionIdx a = some j ∧ j ≤ i) ∧ a ≠ Action.rtpGet i ∧ a ≠ Action.tryDecode i := by
  refine ⟨⟨i0, ha, by omega⟩, ?_, ?_⟩ <;> rintro rfl <;> simp [actionIdx] at ha <;> omega

/-- If a quit/escape event is queued for iteration `i`, then a loop started
at or before `i` emits only actions of iterations up to `i`, and never the
receive or decode of iteration `i` itself. -/
theorem runLoop_quit_mem (env : CamEnv) (i : Nat)
    (hq : (env.events i).any isQuitOrEscape = true) :
    ∀ fuel i0 wf a, i0 ≤ i → a ∈ (runLoop env fuel i0 wf).2 →
      (∃ j, actionIdx a = some j ∧ j ≤ i) ∧ a ≠ Action.rtpGet i ∧ a ≠ Action.tryDecode i := by
  intro fuel
  induction fuel with
  | zero => intro i0 wf a hi0 h; simp [runLoop] at h
  | succ fuel ih =>
    intro i0 wf a hi0 h
    by_cases hq0 : (env.events i0).any isQuitOrEscape
    · simp [runLoop, hq0] at h
      rcases h with rfl | rfl
      · exact ⟨⟨i0, rfl, hi0⟩, by simp, by simp⟩
      · exact ⟨⟨i0, rfl, hi0⟩, by simp, by simp⟩
    · have hlt : i0 < i := by
        rcases Nat.lt_or_ge i0 i with h1 | h1
        · exact h1
        · exact absurd (le_antisymm hi0 h1 ▸ hq) hq0
      rcases hg : env.getRtp i0 with u | e
      · rcases hd : env.tryDecode i0 with fo | e
        · rcases fo with _ | f
          · simp [runLoop, hq0, hg, hd] at h
            rcases h with rfl | rfl | rfl | rfl | rfl | h
            · exact head_idx_ok i0 i hlt _ rfl
            · exact head_idx_ok i0 i hlt _ rfl
            · exact head_idx_ok i0 i hlt _ rfl
            · exact head_idx_ok i0 i hlt _ rfl
            · exact head_idx_ok i0 i hlt _ rfl
            · exact ih (i0 + 1) wf a (by omega) h
          · by_cases hcp : env.copyOk i0
            · simp [runLoop, hq0, hg, hd, hcp] at h
              rcases h with rfl | rfl | rfl | rfl | rfl | rfl | rfl | rfl | rfl | h
              · exact head_idx_ok i0 i hlt _ rfl
              · exact head_idx_ok i0 i hlt _ rfl
              · exact head_idx_ok i0 i hlt _ rfl
              · exact head_idx_ok i0 i hlt _ rfl
              · exact head_idx_ok i0 i hlt _ rfl
              · exact head_idx_ok i0 i hlt _ rfl
              · exact head_idx_ok i0 i hlt _ rfl
              · exact head_idx_ok i0 i hlt _ rfl
              · exact head_idx_ok i0 i hlt _ rfl
              · exact ih (i0 + 1) wf a (by omega) h
            · simp [runLoop, hq0, hg, hd, hcp] at h
              rcases h with rfl | rfl | rfl | rfl | rfl | rfl | rfl | rfl
              · exact head_idx_ok i0 i hlt _ rfl
              · exact head_idx_ok i0 i hlt _ rfl
              · exact head_idx_ok i0 i hlt _ rfl
              · exact head_idx_ok i0 i hlt _ rfl
              · exact head_idx_ok i0 i hlt _ rfl
              · exact head_idx_ok i0 i hlt _ rfl
              · exact head_idx_ok i0 i hlt _ rfl
              · exact head_idx_ok i0 i hlt _ rfl
        · simp [runLoop, hq0, hg, hd] at h
          rcases h with rfl | rfl | rfl | rfl | rfl | h
          · exact head_idx_ok i0 i hlt _ rfl
          · exact head_idx_ok i0 i hlt _ rfl
          · exact head_idx_ok i0 i hlt _ rfl
          · exact head_idx_ok i0 i hlt _ rfl
          · exact head_idx_ok i0 i hlt _ rfl
          · exact ih (i0 + 1) wf a (by omega) h
      · simp [runLoop, hq0, hg] at h
        rcases h with rfl | rfl | rfl
        · exact head_idx_ok i0 i hlt _ rfl
        · exact head_idx_ok i0 i hlt _ rfl
        · exact head_idx_ok i0 i hlt _ rfl

/-- C7: in every iteration of the capture loop, a quit or escape-key event
observed in that iteration's input poll makes the loop exit immediately —
the trace contains no transport receive and no decode of that iteration or
any later one, and no later iteration is entered. Confirmed as stated. -/
theorem C7_quit_no_receive (env : CamEnv) (fuel i : Nat)
    (hq : (env.events i).any isQuitOrEscape = true) :
    (∀ j, i ≤ j → Action.rtpGet j ∉ (get_camera_stream env fuel).2 ∧
      Action.tryDecode j ∉ (get_camera_stream env fuel).2) ∧
    (∀ j, i < j → Action.pollEvents j ∉ (get_camera_stream env fuel).2) := by
  constructor
  · intro j hj
    constructor <;> intro hmem
    · rcases gcs_mem env fuel _ hmem with hx | hx | hx | hx | hx | ⟨b, hx⟩
      · simp at hx
      · simp [negTrace] at hx
      · simp [setupTrace] at hx
      · obtain ⟨⟨k, hk, hki⟩, hne, -⟩ :=
          runLoop_quit_mem env i hq fuel 0 0 _ (Nat.zero_le i) hx
        simp [actionIdx] at hk
        subst hk
        exact hne (by rw [le_antisymm hki hj])
      · simp at hx
      · simp at hx
    · rcases gcs_mem env fuel _ hmem with hx | hx | hx | hx | hx | ⟨b, hx⟩
      · simp at hx
      · simp [negTrace] at hx
      · simp [setupTrace] at hx
      · obtain ⟨⟨k, hk, hki⟩, -, hne⟩ :=
          runLoop_quit_mem env i hq fuel 0 0 _ (Nat.zero_le i) hx
        simp [actionIdx] at hk
        subst hk
        exact hne (by rw [le_antisymm hki hj])
      · simp at hx
      · simp at hx
  · intro j hj hmem
    rcases gcs_mem env fuel _ hmem with hx | hx | hx | hx | hx | ⟨b, hx⟩
    · simp at hx
    · simp [negTrace] at hx
    · simp [setupTrace] at hx
    · obtain ⟨⟨k, hk, hki⟩, -, -⟩ :=
        runLoop_quit_mem env i hq fuel 0 0 _ (Nat.zero_le i) hx
      simp [actionIdx] at hk
      omega
    · simp at hx
    · simp at hx

/-- C7 witness: with the quit event queued at iteration 0, the trace
contains no receive at all. -/
theorem C7_witness : Action.rtpGet 0 ∉ (get_camera_stream okEnv 2).2 :=
  ((C7_quit_no_receive okEnv 2 0 rfl).1 0 (le_refl 0)).1

/-- C8: for every capture-loop iteration that reaches the decode call, a
decode error is logged (warn) and the loop continues into the next
iteration with the same final exit — never terminating the loop; a `None`
decode triggers no paint; a `Some(frame)` decode triggers exactly one paint
of that frame (the paint sequence starting with the texture update of that
iteration). Confirmed as stated. -/
theorem C8_decode_outcomes (env : CamEnv) (i wf fuel : Nat)
    (hq : (env.events i).any isQuitOrEscape = false)
    (hr : env.getRtp i = .ok ()) :
    (∀ e, env.tryDecode i = .err e →
      runLoop env (fuel + 1) i wf =
        ((runLoop env fuel (i + 1) wf).1,
          [.iterWaitFrames i wf, .pollEvents i, .rtpGet i, .tryDecode i, .logWarnDecodeErr i] ++
            (runLoop env fuel (i + 1) wf).2) ∧
      Action.textureUpdate i ∉ (runLoop env (fuel + 1) i wf).2) ∧
    (env.tryDecode i = .ok none →
      Action.textureUpdate i ∉ (runLoop env (fuel + 1) i wf).2) ∧
    (∀ f, env.tryDecode i = .ok (some f) →
      (runLoop env (fuel + 1) i wf).2.count (Action.textureUpdate i) = 1) := by
  refine ⟨?_, ?_, ?_⟩
  · intro e hd
    have heq : runLoop env (fuel + 1) i wf =
        ((runLoop env fuel (i + 1) wf).1,
          [.iterWaitFrames i wf, .pollEvents i, .rtpGet i, .tryDecode i, .logWarnDecodeErr i] ++
            (runLoop env fuel (i + 1) wf).2) := by
      simp [runLoop, hq, hr, hd]
    refine ⟨heq, ?_⟩
    rw [heq]
    intro hmem
    rcases List.mem_append.mp hmem with hx | hx
    · simp at hx
    · exact runLoop_no_idx_lt env fuel (i + 1) wf (Action.textureUpdate i) i rfl (by omega) hx
  · intro hd
    have heq : runLoop env (fuel + 1) i wf =
        ((runLoop env fuel (i + 1) wf).1,
          [.iterWaitFrames i wf, .pollEvents i, .rtpGet i, .tryDecode i, .logDebugNoDecode i] ++
            (runLoop env fuel (i + 1) wf).2) := by
      simp [runLoop, hq, hr, hd]
    rw [heq]
    intro hmem
    rcases List.mem_append.mp hmem with hx | hx
    · simp at hx
    · exact runLoop_no_idx_lt env fuel (i + 1) wf (Action.textureUpdate i) i rfl (by omega) hx
  · intro f hd
    have hrest : (runLoop env fuel (i + 1) wf).2.count (Action.textureUpdate i) = 0 :=
      List.count_eq_zero.mpr (runLoop_no_idx_lt env fuel (i + 1) wf (Action.textureUpdate i) i rfl (by omega))
    by_cases hcp : env.copyOk i
    · have heq : runLoop env (fuel + 1) i wf =
          ((runLoop env fuel (i + 1) wf).1,
            [.iterWaitFrames i wf, .pollEvents i, .rtpGet i, .tryDecode i, .logDebugDecoded i,
              .textureUpdate i, .canvasClear i, .canvasCopy i, .canvasPresent i] ++
              (runLoop env fuel (i + 1) wf).2) := by
        simp [runLoop, hq, hr, hd, hcp]
      rw [heq]
      simp [List.count_append, List.count_cons, hrest]
    · have heq : runLoop env (fuel + 1) i wf =
          (.copyPanic i,
            [.iterWaitFrames i wf, .pollEvents i, .rtpGet i, .tryDecode i, .logDebugDecoded i,
              .textureUpdate i, .canvasClear i, .canvasCopy i]) := by
        simp [runLoop, hq, hr, hd, hcp]
      rw [heq]
      simp [List.count_cons]

/-- Environment for C8's witness: the first packet decodes to a frame. -/
def envDecodeOnce : CamEnv :=
  { okEnv with
    events := fun i => if i = 0 then [] else [.quit]
    tryDecode := fun i => if i = 0 then .ok (some ⟨640, 320, 320⟩) else .ok none }

/-- C8 witness: the frame decoded at iteration 0 is painted exactly once. -/
theorem C8_witness :
    (runLoop envDecodeOnce 2 0 0).2.count (Action.textureUpdate 0) = 1 :=
  (C8_decode_outcomes envDecodeOnce 0 0 1 rfl rfl).2.2 ⟨640, 320, 320⟩ rfl

/-- Any loop-body action of this run also appears in the full
`get_camera_stream` trace when the session opened and setup succeeded. -/
theorem gcs_open_mem_loop (env : CamEnv) (fuel : Nat) (hn : negotiationOk env)
    (hflag : env.responseOkAfterPlay = true) (hs : setupOk env) (a : Action)
    (ha : a ∈ (runLoop env fuel 0 0).2) : a ∈ (get_camera_stream env fuel).2 := by
  have hg := gcs_open env fuel hn hflag hs
  rw [hg]
  revert ha
  rcases runLoop env fuel 0 0 with ⟨ex, ltr⟩
  intro ha
  cases ex with
  | quitBreak i =>
    rcases ht : env.rtspSend .Teardown with u | e <;>
      · simp [teardownStep, ht, List.mem_append]
        tauto
  | recvErr i e =>
    simp [List.mem_append]
    tauto
  | copyPanic i =>
    simp [List.mem_append]
    tauto
  | fuelOut i =>
    simp [List.mem_append]
    tauto

/-- Session opens; the first packet decodes to a frame (before any
synchronization point could have been seen), frames are painted from the
start, and the run quits at iteration 2. -/
def envWarm : CamEnv :=
  { okEnv with
    events := fun i => if i ≤ 1 then [] else [.quit]
    tryDecode := fun i => if i = 0 then .ok (some ⟨640, 320, 320⟩) else .ok none }

/-- C9: the claim states that the per-session warmup counter is reset at
session start and monotonically increases across iterations until a
threshold, serving to discard an initial run of pre-synchronization
frames. Counterexample: in `envWarm` the counter (`wait_frames`) still
holds 0 at iteration 1 after a full iteration 0 (it never increases), and
the frame decoded at the very first iteration is painted, not discarded. -/
theorem C9_counterexample :
    Action.iterWaitFrames 0 0 ∈ (get_camera_stream envWarm 4).2 ∧
      Action.iterWaitFrames 1 0 ∈ (get_camera_stream envWarm 4).2 ∧
      Action.textureUpdate 0 ∈ (get_camera_stream envWarm 4).2 := by
  refine ⟨?_, ?_, ?_⟩ <;> decide

/-- C9 (amended): `wait_frames` is initialized to 0 at session start and is
never incremented or consulted — its value is 0 at the top of every
iteration — and no warmup discarding happens: even a frame decoded at the
very first iteration is painted. -/
theorem C9_amended (env : CamEnv) (fuel : Nat) :
    (∀ i n, Action.iterWaitFrames i n ∈ (get_camera_stream env fuel).2 → n = 0) ∧
    (∀ f, negotiationOk env → env.responseOkAfterPlay = true → setupOk env →
      (env.events 0).any isQuitOrEscape = false → env.getRtp 0 = .ok () →
      env.tryDecode 0 = .ok (some f) → 1 ≤ fuel →
      Action.textureUpdate 0 ∈ (get_camera_stream env fuel).2) := by
  constructor
  · intro i n h
    rcases gcs_mem env fuel _ h with hx | hx | hx | hx | hx | ⟨b, hx⟩
    · simp at hx
    · simp [negTrace] at hx
    · simp [setupTrace] at hx
    · exact runLoop_wf_const env fuel 0 0 i n hx
    · simp at hx
    · simp at hx
  · intro f hn hflag hs hq hr hd hfuel
    obtain ⟨fuel2, rfl⟩ : ∃ k, fuel = k + 1 := ⟨fuel - 1, by omega⟩
    apply gcs_open_mem_loop env _ hn hflag hs
    by_cases hcp : env.copyOk 0
    · simp [runLoop, hq, hr, hd, hcp]
    · simp [runLoop, hq, hr, hd, hcp]

/-- C9 witness: in the concrete pre-synchronization run the iteration-0
frame is painted. -/
theorem C9_witness : Action.textureUpdate 0 ∈ (get_camera_stream envWarm 4).2 :=
  (C9_amended envWarm 4).2 ⟨640, 320, 320⟩ ⟨rfl, rfl, rfl, rfl, rfl⟩ rfl
    ⟨⟨"192.168.1.64", rfl⟩, rfl, rfl, rfl, rfl, rfl, rfl, rfl, rfl⟩ rfl rfl rfl (by omega)

/-- If no element of the suffix equals `x`, a position holding `x` lies in
the prefix. -/
theorem get_append_lt {α : Type} (p q : List α) (x : α) (i : Nat)
    (hq : ∀ y ∈ q, y ≠ x) (h : (p ++ q).get? i = some x) : i < p.length := by
  rcases Nat.lt_or_ge i p.length with h1 | h1
  · exact h1
  · exfalso
    rw [List.get?_append_right h1] at h
    exact hq _ (List.get?_mem h) rfl

/-- If no element of the prefix equals `x`, a position holding `x` lies in
the suffix. -/
theorem get_append_ge {α : Type} (p q : List α) (x : α) (i : Nat)
    (hp : ∀ y ∈ p, y ≠ x) (h : (p ++ q).get? i = some x) : p.length ≤ i := by
  rcases Nat.lt_or_ge i p.length with h1 | h1
  · exact absurd rfl (hp _ (List.get?_mem (by rw [List.get?_append h1] at h; exact h)))
  · exact h1

/-- C10: camera pipelines run strictly sequentially. The second camera's
`get_camera_stream` actions appear in `main`'s trace only if the first
camera's call returned successfully (its loop exited and its teardown
completed), and every action of the first camera's session precedes every
action of the second camera's session in the trace — so at most one capture
loop and at most one media session are ever active at a time. Confirmed as
stated. -/
theorem C10_sequential (env : MainEnv) (fuel : Nat) :
    ((∃ a, MAction.cam 1 a ∈ (mainRun env fuel).2) →
      (get_camera_stream (env.cam 0) fuel).1 = .ok) ∧
    (∀ i j a b, (mainRun env fuel).2.get? i = some (MAction.cam 0 a) →
      (mainRun env fuel).2.get? j = some (MAction.cam 1 b) → i < j) := by
  rcases r0 : discoverProfile env 0 with ⟨res0, tr0⟩
  have htr0 : ∀ y ∈ tr0, ∃ m, y = MAction.onvif m 0 := by
    intro y hy
    exact discoverProfile_actions env 0 y (by rw [r0]; exact hy)
  cases res0 with
  | err e =>
    have hm : mainRun env fuel = (.err e, tr0) := by simp [mainRun, r0]
    rw [hm]
    constructor
    · rintro ⟨a, ha⟩
      obtain ⟨m, hme⟩ := htr0 _ ha
      simp at hme
    · intro i j a b hi hj
      obtain ⟨m, hme⟩ := htr0 _ (List.get?_mem hj)
      simp at hme
  | ok uri0 =>
    rcases r1 : discoverProfile env 1 with ⟨res1, tr1⟩
    have htr1 : ∀ y ∈ tr1, ∃ m, y = MAction.onvif m 1 := by
      intro y hy
      exact discoverProfile_actions env 1 y (by rw [r1]; exact hy)
    cases res1 with
    | err e =>
      have hm : mainRun env fuel = (.err e, tr0 ++ tr1) := by simp [mainRun, r0, r1]
      rw [hm]
      have hcam : ∀ k (c : Action), MAction.cam k c ∉ tr0 ++ tr1 := by
        intro k c hc
        rcases List.mem_append.mp hc with hc | hc
        · obtain ⟨m, hme⟩ := htr0 _ hc; simp at hme
        · obtain ⟨m, hme⟩ := htr1 _ hc; simp at hme
      constructor
      · rintro ⟨a, ha⟩
        exact absurd ha (hcam 1 a)
      · intro i j a b hi hj
        exact absurd (List.get?_mem hj) (hcam 1 b)
    | ok uri1 =>
      rcases o1 : get_camera_stream (env.cam 0) fuel with ⟨out1, c1⟩
      have hnocam1 : ∀ y ∈ (tr0 ++ tr1) ++ c1.map (MAction.cam 0),
          ∀ b : Action, y ≠ MAction.cam 1 b := by
        intro y hy b
        rcases List.mem_append.mp hy with hy | hy
        · rcases List.mem_append.mp hy with hy | hy
          · obtain ⟨m, hme⟩ := htr0 _ hy; subst hme; simp
          · obtain ⟨m, hme⟩ := htr1 _ hy; subst hme; simp
        · obtain ⟨c, -, hme⟩ := List.mem_map.mp hy
          subst hme; simp
      cases out1 with
      | ok =>
        rcases o2 : get_camera_stream (env.cam 1) fuel with ⟨out2, c2⟩
        have hm : mainRun env fuel =
            (out2, tr0 ++ tr1 ++ c1.map (MAction.cam 0) ++ c2.map (MAction.cam 1)) := by
          simp [mainRun, r0, r1, o1, o2]
        rw [hm]
        refine ⟨fun _ => rfl, ?_⟩
        intro i j a b hi hj
        have hja : (((tr0 ++ tr1) ++ c1.map (MAction.cam 0)) ++ c2.map (MAction.cam 1)).get? i =
            some (MAction.cam 0 a) := by
          simpa [List.append_assoc] using hi
        have hjb : (((tr0 ++ tr1) ++ c1.map (MAction.cam 0)) ++ c2.map (MAction.cam 1)).get? j =
            some (MAction.cam 1 b) := by
          simpa [List.append_assoc] using hj
        have hlt : i < ((tr0 ++ tr1) ++ c1.map (MAction.cam 0)).length := by
          apply get_append_lt _ _ _ _ _ hja
          intro y hy
          obtain ⟨c, -, hme⟩ := List.mem_map.mp hy
          subst hme; simp
        have hge : ((tr0 ++ tr1) ++ c1.map (MAction.cam 0)).length ≤ j := by
          apply get_append_ge _ _ _ _ _ hjb
          intro y hy
          exact hnocam1 y hy b
        omega
      | err e =>
        have hm : mainRun env fuel = (.err e, tr0 ++ tr1 ++ c1.map (MAction.cam 0)) := by
          simp [mainRun, r0, r1, o1]
        rw [hm]
        constructor
        · rintro ⟨a, ha⟩
          exact absurd rfl (hnocam1 _ (by simpa [List.append_assoc] using ha) a)
        · intro i j a b hi hj
          exact absurd rfl
            (hnocam1 _ (List.get?_mem (by simpa [List.append_assoc] using hj)) b)
      | panic msg =>
        have hm : mainRun env fuel = (.panic msg, tr0 ++ tr1 ++ c1.map (MAction.cam 0)) := by
          simp [mainRun, r0, r1, o1]
        rw [hm]
        constructor
        · rintro ⟨a, ha⟩
          exact absurd rfl (hnocam1 _ (by simpa [List.append_assoc] using ha) a)
        · intro i j a b hi hj
          exact absurd rfl
            (hnocam1 _ (List.get?_mem (by simpa [List.append_assoc] using hj)) b)
      | fuelOut =>
        have hm : mainRun env fuel = (.fuelOut, tr0 ++ tr1 ++ c1.map (MAction.cam 0)) := by
          simp [mainRun, r0, r1, o1]
        rw [hm]
        constructor
        · rintro ⟨a, ha⟩
          exact absurd rfl (hnocam1 _ (by simpa [List.append_assoc] using ha) a)
        · intro i j a b hi hj
          exact absurd rfl
            (hnocam1 _ (List.get?_mem (by simpa [List.append_assoc] using hj)) b)

/-- Environment for `main` in which discovery and both camera sessions
fully succeed, each quitting at its first loop iteration. -/
def envM10 : MainEnv where
  onvifSend := fun _ _ => .ok "rtsp uri"
  cam := fun _ => okEnv

/-- C10 witness: in the fully-successful two-camera run, the first
camera's session start (trace position 8) precedes the second camera's
session start (trace position 23). -/
theorem C10_witness : 8 < 23 :=
  (C10_sequential envM10 2).2 8 23 Action.rtspNew Action.rtspNew (by decide) (by decide)

end Nvr
